import Mathlib

/-!
Shallow embedding of the wind-estimation core of the balloon-adsb-hud
repository, and proofs checking its natural-language specification against
the code.

The embedded code is `src/wind_calculator.py` (the methods
`calculate_wind_from_trajectory`, `_calculate_bearing`, `_bin_wind_data`,
`calculate_wind_profile`) together with the trajectory-differencing loop of
`create_wind_profile` in `src/app.py`.

Modelling conventions:
* Python floats that only flow through arithmetic, comparisons and
  container operations are embedded as rationals (`ℚ`); the transcendental
  parts of the code (`math.sin`, `math.atan2`, `numpy` aggregation) are
  embedded over the reals (`ℝ`), which is the mathematical semantics the
  specification states.
* `geopy.distance.geodesic` and the float-level bearing value consumed by
  the differencing loops belong to an external library / separate helper;
  the differencers take them as oracle parameters (`DistOracle`, in meters,
  and `BearOracle`, in degrees).  Theorems about the differencing pipeline
  hold for every oracle; concrete witnesses instantiate the oracle with
  functions that agree with the geodesic on the inputs used (in particular
  `geodesic(p, p) = 0`).
* SQL `NULL` / pandas `NaN` in a column is `Option.none`; `dropna` is a
  filter on `isSome`.  The `timestamp` column is declared `NOT NULL` in
  `database.py`, so it is embedded without `Option`.
* Python truthiness of a nullable float (`if latest_ref['latitude']`) is
  `truthy`: the value exists and is nonzero.
* `pandas.sort_values('timestamp')` is embedded as a deterministic
  ascending sort by timestamp (insertion sort); the claims under study do
  not depend on the tie-breaking order of equal timestamps.
* Python `%` on floats is floor-based modulo, embedded as `pyMod` / `pyModQ`;
  `math.atan2 y x` is the argument of the complex number `x + y*i`, with
  `atan2 0 0 = 0` exactly as in CPython.
* The dict returned by `_bin_wind_data` is embedded as an association list
  keyed by the altitude bin, in the insertion order of the source loop.
-/

namespace BalloonHud

/-- Python float modulo `x % y` (floor-based, result has the sign of `y`),
over the reals. -/
noncomputable def pyMod (x y : ℝ) : ℝ := x - y * ⌊x / y⌋

/-- Python float modulo `x % y` at the rational (float-value) level. -/
def pyModQ (x y : ℚ) : ℚ := x - y * ⌊x / y⌋

/-- Embedding of `math.radians`. -/
noncomputable def radians (d : ℝ) : ℝ := d * Real.pi / 180

/-- Embedding of `math.degrees`. -/
noncomputable def degrees (r : ℝ) : ℝ := r * 180 / Real.pi

/-- Embedding of `math.atan2 y x`: the argument of the complex number
`x + y*i`, in `(-π, π]`, with `atan2 0 0 = 0` as in CPython. -/
noncomputable def atan2 (y x : ℝ) : ℝ := Complex.arg ⟨x, y⟩

/-- Embedding of `WindCalculator._calculate_bearing` (wind_calculator.py,
lines 105-121).  Points are `(latitude, longitude)` pairs in degrees. -/
noncomputable def calculate_bearing (point1 point2 : ℝ × ℝ) : ℝ :=
  let lat1 := radians point1.1
  let lat2 := radians point2.1
  let lon1 := radians point1.2
  let lon2 := radians point2.2
  let dlon := lon2 - lon1
  let y := Real.sin dlon * Real.cos lat2
  let x := Real.cos lat1 * Real.sin lat2 - Real.sin lat1 * Real.cos lat2 * Real.cos dlon
  pyMod (degrees (atan2 y x) + 360) 360

/-- One row of the `aircraft_data` table as consumed by the wind
calculator.  Nullable REAL columns are `Option ℚ`; `timestamp` is declared
`NOT NULL` in the schema. -/
structure Report where
  latitude : Option ℚ
  longitude : Option ℚ
  altitude : Option ℚ
  geo_altitude : Option ℚ
  timestamp : ℚ
deriving DecidableEq

/-- Oracle for `geopy.distance.geodesic(p1, p2).meters` (external library). -/
abbrev DistOracle := ℚ × ℚ → ℚ × ℚ → ℚ

/-- Oracle for the float value produced by the bearing helper, as consumed
by the differencing loops. -/
abbrev BearOracle := ℚ × ℚ → ℚ × ℚ → ℚ

/-- The `(latitude, longitude)` pair of a report (used only on rows whose
coordinates passed the validity filters). -/
def Report.pos (r : Report) : ℚ × ℚ := (r.latitude.getD 0, r.longitude.getD 0)

/-- Which altitude column the profile computation reads. -/
inductive AltCol
  | baro
  | geo
deriving DecidableEq

/-- Column selection of `calculate_wind_profile` (wind_calculator.py, lines
245-249): `geo_altitude` is used only when it was requested AND the column
exists in the DataFrame; every other case reads barometric `altitude`. -/
def altitude_col (altitude_source : String) (has_geo_column : Bool) : AltCol :=
  if altitude_source = "geo_altitude" ∧ has_geo_column = true then .geo else .baro

/-- The altitude value of a report in the selected column. -/
def Report.alt_of (r : Report) (c : AltCol) : Option ℚ :=
  match c with
  | .baro => r.altitude
  | .geo => r.geo_altitude

/-- Row validity filter of both wind computations: `dropna` on latitude,
longitude, the selected altitude column (timestamp is never null here),
then `latitude != 0`, `longitude != 0`, `altitude > 0`
(wind_calculator.py, lines 36-39 and 252-255). -/
def valid_row (c : AltCol) (r : Report) : Bool :=
  r.latitude.isSome && r.longitude.isSome && (r.alt_of c).isSome &&
  decide (r.latitude.getD 0 ≠ 0) && decide (r.longitude.getD 0 ≠ 0) &&
  decide (0 < (r.alt_of c).getD 0)

/-- Embedding of `df.sort_values('timestamp')`: deterministic stable
ascending sort by timestamp. -/
def sort_by_timestamp (l : List Report) : List Report :=
  l.insertionSort (fun a b => a.timestamp ≤ b.timestamp)

/-- The consecutive pairs `(df.iloc[i-1], df.iloc[i])` of the sorted frame. -/
def consecutive_pairs (l : List α) : List (α × α) := l.zip l.tail

/-- One element of the `wind_vectors` list built by
`calculate_wind_from_trajectory` (and by app.py's differencing loop). -/
structure WindVec where
  altitude : ℚ
  wind_speed : ℚ
  wind_direction : ℚ
  dt : ℚ
  distance : ℚ
deriving DecidableEq

/-- Loop body of `calculate_wind_from_trajectory` (wind_calculator.py,
lines 51-84): skip the pair when `dt <= 0 or dt > 300`; otherwise emit a
vector carrying `distance/dt` and the bearing, guarded by
`avg_altitude > 0`.  No wind-speed threshold appears here. -/
def traj_step (D : DistOracle) (B : BearOracle) (pr : Report × Report) :
    Option WindVec :=
  let dt := pr.2.timestamp - pr.1.timestamp
  if dt ≤ 0 ∨ 300 < dt then none
  else
    let distance := D pr.1.pos pr.2.pos
    let bearing := B pr.1.pos pr.2.pos
    let horizontal_speed := distance / dt
    let avg_altitude := (pr.1.altitude.getD 0 + pr.2.altitude.getD 0) / 2
    if 0 < avg_altitude then
      some { altitude := avg_altitude, wind_speed := horizontal_speed,
             wind_direction := bearing, dt := dt, distance := distance }
    else none

/-- The `wind_vectors` list of `calculate_wind_from_trajectory`. -/
def trajectory_vectors (D : DistOracle) (B : BearOracle)
    (rows : List Report) : List WindVec :=
  (consecutive_pairs rows).filterMap (traj_step D B)

/-- Bin assignment `(altitude // bin_size) * bin_size`
(wind_calculator.py, line 131); `//` on floats is floor division. -/
def bin_of (bin_size : ℤ) (altitude : ℚ) : ℤ :=
  ⌊altitude / (bin_size : ℚ)⌋ * bin_size

/-- Helper for `unique_first`: keeps the first occurrence of each value
not already seen. -/
def unique_first_aux (seen : List ℤ) : List ℤ → List ℤ
  | [] => []
  | a :: rest =>
      if a ∈ seen then unique_first_aux seen rest
      else a :: unique_first_aux (a :: seen) rest

/-- First-occurrence deduplication, as `pandas.unique` over the
`altitude_bin` column. -/
def unique_first (l : List ℤ) : List ℤ := unique_first_aux [] l

/-- The rows of one altitude bin (`df[df['altitude_bin'] == altitude_bin]`). -/
def bin_sample (bin_size : ℤ) (vs : List WindVec) (b : ℤ) : List WindVec :=
  vs.filter (fun v => decide (bin_of bin_size v.altitude = b))

/-- The bins that survive the `len(bin_data) < self.min_samples` guard, in
first-occurrence order. -/
def bin_keys (bin_size : ℤ) (min_samples : ℕ) (vs : List WindVec) : List ℤ :=
  (unique_first (vs.map (fun v => bin_of bin_size v.altitude))).filter
    (fun b => decide (min_samples ≤ (bin_sample bin_size vs b).length))

/-- One value of the dict returned by `_bin_wind_data`. -/
structure WindStats where
  wind_speed : ℝ
  wind_direction : ℝ
  sample_count : ℕ
  wind_speed_std : ℝ
  wind_direction_std : ℝ

/-- Embedding of `numpy.mean` over a list of reals. -/
noncomputable def np_mean (xs : List ℝ) : ℝ := xs.sum / xs.length

/-- Embedding of `numpy.std` (population standard deviation). -/
noncomputable def np_std (xs : List ℝ) : ℝ :=
  Real.sqrt (np_mean (xs.map (fun x => (x - np_mean xs) ^ 2)))

/-- Per-bin aggregation of `_bin_wind_data` (wind_calculator.py, lines
141-165): vector decomposition of directions weighted by speed, averaged,
and converted back to a speed and a direction. -/
noncomputable def bin_aggregate (bin_size : ℤ) (vs : List WindVec) (b : ℤ) :
    WindStats :=
  let sample := bin_sample bin_size vs b
  let wind_speeds : List ℝ := sample.map (fun v => (v.wind_speed : ℝ))
  let wind_directions : List ℝ := sample.map (fun v => (v.wind_direction : ℝ))
  let u_components : List ℝ :=
    sample.map (fun v => (v.wind_speed : ℝ) * Real.sin (radians (v.wind_direction : ℝ)))
  let v_components : List ℝ :=
    sample.map (fun v => (v.wind_speed : ℝ) * Real.cos (radians (v.wind_direction : ℝ)))
  let avg_u := np_mean u_components
  let avg_v := np_mean v_components
  { wind_speed := Real.sqrt (avg_u ^ 2 + avg_v ^ 2),
    wind_direction := pyMod (degrees (atan2 avg_u avg_v) + 360) 360,
    sample_count := sample.length,
    wind_speed_std := np_std wind_speeds,
    wind_direction_std := np_std wind_directions }

/-- Embedding of `WindCalculator._bin_wind_data` (wind_calculator.py,
lines 123-167): the returned dict, as an association list in insertion
order. -/
noncomputable def bin_wind_data (bin_size : ℤ) (min_samples : ℕ)
    (vs : List WindVec) : List (ℤ × WindStats) :=
  (bin_keys bin_size min_samples vs).map (fun b => (b, bin_aggregate bin_size vs b))

/-- Embedding of `WindCalculator.calculate_wind_from_trajectory`
(wind_calculator.py, lines 17-103), starting from the report list the
database handed back; the write-back of the aggregates into the database
(lines 93-101) does not change the returned value and is not modelled. -/
noncomputable def calculate_wind_from_trajectory (D : DistOracle)
    (B : BearOracle) (bin_size : ℤ) (min_samples : ℕ)
    (aircraft_data : List Report) : List (ℤ × WindStats) :=
  if aircraft_data.length < 2 then []
  else
    let df := aircraft_data.filter (valid_row .baro)
    if df.length < 2 then []
    else
      let wind_vectors := trajectory_vectors D B (sort_by_timestamp df)
      if wind_vectors.isEmpty then []
      else bin_wind_data bin_size min_samples wind_vectors

/-- One element of the `wind_vectors` list built by
`calculate_wind_profile` (reciprocal mode). -/
structure ProfileVec where
  altitude : ℚ
  wind_speed : ℚ
  wind_direction : ℚ
  timestamp : ℚ
deriving DecidableEq

/-- One record of the list returned by `calculate_wind_profile`. -/
structure ProfileRecord where
  altitude_bin : ℚ
  wind_speed : ℚ
  wind_direction : ℚ
  sample_count : ℕ
  timestamp : ℚ
deriving DecidableEq

/-- Loop body of `calculate_wind_profile` (wind_calculator.py, lines
262-292): skip the pair only when `time_diff <= 0`; otherwise emit a
vector in km/h with the reciprocal direction `(bearing + 180) % 360` and
the altitude of the later report.  There is no upper cap on `time_diff`
and no speed threshold here. -/
def prof_step (D : DistOracle) (B : BearOracle) (c : AltCol)
    (pr : Report × Report) : Option ProfileVec :=
  let time_diff := pr.2.timestamp - pr.1.timestamp
  if time_diff ≤ 0 then none
  else
    let distance := D pr.1.pos pr.2.pos / 1000
    let bearing := B pr.1.pos pr.2.pos
    let ground_speed := distance / (time_diff / 3600)
    let wind_direction := pyModQ (bearing + 180) 360
    some { altitude := (pr.2.alt_of c).getD 0, wind_speed := ground_speed,
           wind_direction := wind_direction, timestamp := pr.2.timestamp }

/-- Python truthiness of a nullable float: present and nonzero. -/
def truthy (o : Option ℚ) : Bool :=
  match o with
  | none => false
  | some x => decide (x ≠ 0)

/-- Embedding of `max(ref_data, key=lambda x: x['timestamp'])`: the first
report attaining the maximal timestamp, `none` on the empty list. -/
def most_recent : List Report → Option Report
  | [] => none
  | r :: rest =>
      some (rest.foldl (fun best x => if best.timestamp < x.timestamp then x else best) r)

/-- Reference-position resolution of `calculate_wind_profile`
(wind_calculator.py, lines 218-226): requires a positive distance filter
and a reference trajectory (`ref_data = none` models no `reference_icao`);
takes the most recent report of the reference trajectory and uses it only
if that report itself has truthy latitude and longitude. -/
def reference_position (distance_filter_km : Option ℚ)
    (ref_data : Option (List Report)) : Option (ℚ × ℚ) :=
  match distance_filter_km, ref_data with
  | some d, some refs =>
      if 0 < d then
        match most_recent refs with
        | none => none
        | some latest =>
            if truthy latest.latitude && truthy latest.longitude then
              some (latest.latitude.getD 0, latest.longitude.getD 0)
            else none
      else none
  | _, _ => none

/-- Distance-filter application of `calculate_wind_profile`
(wind_calculator.py, lines 228-236): a no-op unless a reference position
was resolved and the distance filter is positive; otherwise keeps exactly
the reports with truthy coordinates within `distance_filter_km`
kilometers of the reference. -/
def distance_filtered (D : DistOracle) (distance_filter_km : Option ℚ)
    (rp : Option (ℚ × ℚ)) (data : List Report) : List Report :=
  match rp, distance_filter_km with
  | some p, some d =>
      if 0 < d then
        data.filter (fun pt => truthy pt.latitude && truthy pt.longitude &&
          decide (D p pt.pos / 1000 ≤ d))
      else data
  | _, _ => data

/-- Time-filter application of `calculate_wind_profile`
(wind_calculator.py, lines 214-216): keeps reports with
`timestamp >= datetime.now().timestamp() - time_filter_seconds`. -/
def time_filtered (time_filter_seconds : Option ℚ) (now : ℚ)
    (data : List Report) : List Report :=
  match time_filter_seconds with
  | some t => if 0 < t then data.filter (fun d => decide (now - t ≤ d.timestamp)) else data
  | none => data

/-- Embedding of `WindCalculator.calculate_wind_profile`
(wind_calculator.py, lines 191-309), starting from the report list the
database handed back (`aircraft_data`); `ref_data` is the reference
trajectory's report list when a `reference_icao` was supplied; `now` is
the wall-clock value `datetime.now().timestamp()` read by the time
filter; `has_geo_column` is whether `geo_altitude` occurs in the
DataFrame's columns. -/
def calculate_wind_profile (D : DistOracle) (B : BearOracle)
    (altitude_source : String) (has_geo_column : Bool)
    (time_filter_seconds distance_filter_km : Option ℚ)
    (ref_data : Option (List Report)) (now : ℚ)
    (aircraft_data : List Report) : List ProfileRecord :=
  if aircraft_data.length < 2 then []
  else
    let data1 := time_filtered time_filter_seconds now aircraft_data
    let rp := reference_position distance_filter_km ref_data
    let data2 := distance_filtered D distance_filter_km rp data1
    if data2.length < 2 then []
    else
      let c := altitude_col altitude_source has_geo_column
      let df := sort_by_timestamp (data2.filter (valid_row c))
      if df.length < 2 then []
      else
        let wind_vectors := (consecutive_pairs df).filterMap (prof_step D B c)
        if wind_vectors.isEmpty then []
        else wind_vectors.map (fun v =>
          { altitude_bin := v.altitude, wind_speed := v.wind_speed,
            wind_direction := v.wind_direction, sample_count := 1,
            timestamp := v.timestamp })

/-- Loop body of the differencing loop in app.py's `create_wind_profile`
(app.py, lines 1016-1048): same `dt` gate as the trajectory mode, but the
vector is emitted only when `horizontal_speed > 1` (the 1 m/s significance
threshold), with the altitude averaged from the selected column. -/
def app_wind_step (D : DistOracle) (B : BearOracle) (c : AltCol)
    (pr : Report × Report) : Option WindVec :=
  let dt := pr.2.timestamp - pr.1.timestamp
  if dt ≤ 0 ∨ 300 < dt then none
  else
    let distance := D pr.1.pos pr.2.pos
    let bearing := B pr.1.pos pr.2.pos
    let horizontal_speed := distance / dt
    let avg_altitude := ((pr.1.alt_of c).getD 0 + (pr.2.alt_of c).getD 0) / 2
    if 1 < horizontal_speed then
      some { altitude := avg_altitude, wind_speed := horizontal_speed,
             wind_direction := bearing, dt := dt, distance := distance }
    else none

/-- Reference position as the specification words it ("the most recent
valid (non-null lat/lon) report of the reference identifier's own
trajectory"), stated for comparison with `reference_position`. -/
def spec_reference_position (ref_data : List Report) : Option (ℚ × ℚ) :=
  match most_recent (ref_data.filter (fun r => truthy r.latitude && truthy r.longitude)) with
  | none => none
  | some r => some (r.latitude.getD 0, r.longitude.getD 0)

/-! Concrete oracles and inputs used by witnesses and counterexamples.
The oracle instantiations agree with `geopy.distance.geodesic` on the
properties the statements use (in particular a geodesic distance of zero
between identical points for `distZeroAtEq`). -/

/-- Constant distance oracle: 1000 meters between any two points. -/
def distConst : DistOracle := fun _ _ => 1000

/-- Constant bearing oracle: 90 degrees. -/
def bearConst : BearOracle := fun _ _ => 90

/-- Distance oracle that is zero on identical points (as the geodesic is). -/
def distZeroAtEq : DistOracle := fun p q => if p = q then 0 else 1000000

/-- Constant distance oracle: 5,000,000 meters (5000 km) between any two
points. -/
def distFar : DistOracle := fun _ _ => 5000000

/-- A report with the given latitude, longitude, barometric altitude and
timestamp, and no geometric altitude. -/
def mkReport (lat lon alt ts : ℚ) : Report :=
  { latitude := some lat, longitude := some lon, altitude := some alt,
    geo_altitude := none, timestamp := ts }

/-- Base report at (10, 20), altitude 1000 m, timestamp 0. -/
def rA : Report := mkReport 10 20 1000 0

/-- Valid report 301 seconds after `rA`. -/
def rB301 : Report := mkReport 10 21 1000 301

/-- Valid report 299 seconds after `rA`. -/
def rB299 : Report := mkReport 10 21 1000 299

/-- Report at the same position as `rA`, 10 seconds later. -/
def rA10 : Report := mkReport 10 20 1000 10

/-- Valid report 50 seconds after `rA`. -/
def rC50 : Report := mkReport 10 21 1000 50

/-- Reference-trajectory report with valid coordinates at timestamp 1. -/
def refValid : Report := mkReport 10 10 1000 1

/-- Most recent reference-trajectory report, with a null latitude. -/
def refStale : Report :=
  { latitude := none, longitude := some 10, altitude := some 1000,
    geo_altitude := none, timestamp := 2 }

/-- Reference trajectory whose most recent report has a null latitude
while an older valid report exists. -/
def refTraj : List Report := [refValid, refStale]

/-- Wind vectors with directions 350 and 10 degrees and equal speed 8,
falling in the same 500 m altitude bin. -/
def demo_vectors : List WindVec :=
  [{ altitude := 15200, wind_speed := 8, wind_direction := 350, dt := 60, distance := 480 },
   { altitude := 15400, wind_speed := 8, wind_direction := 10, dt := 60, distance := 480 }]

/-- A single wind vector at altitude 15,200 m. -/
def single_vector : List WindVec :=
  [{ altitude := 15200, wind_speed := 5, wind_direction := 90, dt := 60, distance := 300 }]

/-- Wind vectors: two in bin 15,000 and three in bin 16,000. -/
def suppression_vectors : List WindVec :=
  [{ altitude := 15100, wind_speed := 5, wind_direction := 90, dt := 60, distance := 300 },
   { altitude := 15200, wind_speed := 6, wind_direction := 91, dt := 60, distance := 360 },
   { altitude := 16100, wind_speed := 5, wind_direction := 92, dt := 60, distance := 300 },
   { altitude := 16200, wind_speed := 6, wind_direction := 93, dt := 60, distance := 360 },
   { altitude := 16300, wind_speed := 7, wind_direction := 94, dt := 60, distance := 420 }]

/-! Helper lemmas. -/

theorem pyMod_eq_mul_fract (x : ℝ) {y : ℝ} (hy : y ≠ 0) :
    pyMod x y = y * Int.fract (x / y) := by
  unfold pyMod Int.fract
  rw [mul_sub, show y * (x / y) = x from by field_simp]

theorem pyMod_nonneg (x : ℝ) {y : ℝ} (hy : 0 < y) : 0 ≤ pyMod x y := by
  rw [pyMod_eq_mul_fract x hy.ne']
  exact mul_nonneg hy.le (Int.fract_nonneg _)

theorem pyMod_lt (x : ℝ) {y : ℝ} (hy : 0 < y) : pyMod x y < y := by
  rw [pyMod_eq_mul_fract x hy.ne']
  calc y * Int.fract (x / y) < y * 1 := mul_lt_mul_of_pos_left (Int.fract_lt_one _) hy
    _ = y := mul_one y

theorem pyMod_360_360 : pyMod 360 360 = 0 := by
  unfold pyMod
  norm_num

theorem atan2_zero_of_pos {x : ℝ} (hx : 0 < x) : atan2 0 x = 0 := by
  unfold atan2
  rw [show (⟨x, 0⟩ : ℂ) = (x : ℂ) from rfl]
  exact Complex.arg_ofReal_of_nonneg hx.le

theorem atan2_zero_zero : atan2 0 0 = 0 := by
  unfold atan2
  rw [show (⟨0, 0⟩ : ℂ) = (0 : ℂ) from rfl]
  exact Complex.arg_zero

theorem degrees_zero : degrees 0 = 0 := by
  unfold degrees
  simp

theorem mem_unique_first_aux {a : ℤ} :
    ∀ (l seen : List ℤ), a ∈ unique_first_aux seen l ↔ a ∈ l ∧ a ∉ seen := by
  intro l
  induction l with
  | nil => intro seen; simp [unique_first_aux]
  | cons b rest ih =>
      intro seen
      simp only [unique_first_aux]
      by_cases hb : b ∈ seen
      · rw [if_pos hb, ih]
        simp only [List.mem_cons]
        constructor
        · rintro ⟨h1, h2⟩
          exact ⟨Or.inr h1, h2⟩
        · rintro ⟨h1 | h1, h2⟩
          · exact absurd (h1 ▸ hb) h2
          · exact ⟨h1, h2⟩
      · rw [if_neg hb]
        simp only [List.mem_cons, ih]
        constructor
        · rintro (rfl | ⟨h1, h2⟩)
          · exact ⟨Or.inl rfl, hb⟩
          · exact ⟨Or.inr h1, fun hs => h2 (Or.inr hs)⟩
        · rintro ⟨h1 | h1, h2⟩
          · exact Or.inl h1
          · by_cases hab : a = b
            · exact Or.inl hab
            · exact Or.inr ⟨h1, fun hor => hor.elim hab h2⟩

theorem mem_unique_first {l : List ℤ} {a : ℤ} : a ∈ unique_first l ↔ a ∈ l := by
  unfold unique_first
  rw [mem_unique_first_aux]
  simp

theorem traj_step_isSome_iff (D : DistOracle) (B : BearOracle)
    (pr : Report × Report) :
    (traj_step D B pr).isSome = true ↔
      (0 < pr.2.timestamp - pr.1.timestamp ∧
       pr.2.timestamp - pr.1.timestamp ≤ 300 ∧
       0 < (pr.1.altitude.getD 0 + pr.2.altitude.getD 0) / 2) := by
  unfold traj_step
  dsimp only
  split_ifs with h1 h2
  · constructor
    · intro h
      simp at h
    · rintro ⟨hdt, hcap, _⟩
      rcases h1 with h | h <;> linarith
  · push_neg at h1
    simp only [Option.isSome_some, true_iff]
    exact ⟨h1.1, h1.2, h2⟩
  · push_neg at h1 h2
    constructor
    · intro h
      simp at h
    · rintro ⟨_, _, havg⟩
      linarith

theorem prof_step_isSome_iff (D : DistOracle) (B : BearOracle) (c : AltCol)
    (pr : Report × Report) :
    (prof_step D B c pr).isSome = true ↔ 0 < pr.2.timestamp - pr.1.timestamp := by
  unfold prof_step
  dsimp only
  split_ifs with h1
  · constructor
    · intro h
      simp at h
    · intro h
      linarith
  · push_neg at h1
    simp only [Option.isSome_some, true_iff]
    exact h1

theorem app_wind_step_isSome_iff (D : DistOracle) (B : BearOracle) (c : AltCol)
    (pr : Report × Report) :
    (app_wind_step D B c pr).isSome = true ↔
      (0 < pr.2.timestamp - pr.1.timestamp ∧
       pr.2.timestamp - pr.1.timestamp ≤ 300 ∧
       1 < D pr.1.pos pr.2.pos / (pr.2.timestamp - pr.1.timestamp)) := by
  unfold app_wind_step
  dsimp only
  split_ifs with h1 h2
  · constructor
    · intro h
      simp at h
    · rintro ⟨hdt, hcap, _⟩
      rcases h1 with h | h <;> linarith
  · push_neg at h1
    simp only [Option.isSome_some, true_iff]
    exact ⟨h1.1, h1.2, h2⟩
  · push_neg at h1 h2
    constructor
    · intro h
      simp at h
    · rintro ⟨_, _, hsp⟩
      linarith

/-! Claim C2: dt rejection. -/

/-- C2, counterexample: the claim says the `dt <= 0 or dt > 300` rejection
applies in `calculate_wind_profile` (reciprocal mode) as well, so a pair
with `dt = 301` should produce no WindVector there; in fact
`calculate_wind_profile` only rejects `dt <= 0`, and on two valid reports
301 seconds apart it returns one wind record. -/
theorem dt_cap_reciprocal_counterexample :
    rB301.timestamp - rA.timestamp = 301 ∧
    (calculate_wind_profile distConst bearConst "altitude" false none none
        none 0 [rA, rB301]).length = 1 := by
  constructor
  · norm_num [rA, rB301, mkReport]
  · norm_num [calculate_wind_profile, time_filtered, reference_position,
      distance_filtered, altitude_col, valid_row, sort_by_timestamp,
      List.insertionSort, List.orderedInsert, consecutive_pairs, prof_step,
      rA, rB301, mkReport, Report.alt_of, Report.pos, pyModQ, List.filter,
      List.filterMap, distConst, bearConst]

/-- C2 (amended): for every consecutive pair, the trajectory-as-wind
differencer (`calculate_wind_from_trajectory`) emits no WindVector when
`dt <= 0` or `dt > 300` and emits one for an otherwise-valid pair with
`0 < dt <= 300`; the reciprocal differencer (`calculate_wind_profile`)
rejects only `dt <= 0` and emits a vector for every pair with `dt > 0`,
with no 300-second cap. -/
theorem dt_rejection_by_mode :
    (∀ (D : DistOracle) (B : BearOracle) (pr : Report × Report),
        pr.2.timestamp - pr.1.timestamp ≤ 0 ∨ 300 < pr.2.timestamp - pr.1.timestamp →
        traj_step D B pr = none) ∧
    (∀ (D : DistOracle) (B : BearOracle) (pr : Report × Report),
        0 < pr.2.timestamp - pr.1.timestamp →
        pr.2.timestamp - pr.1.timestamp ≤ 300 →
        0 < (pr.1.altitude.getD 0 + pr.2.altitude.getD 0) / 2 →
        (traj_step D B pr).isSome = true) ∧
    (∀ (D : DistOracle) (B : BearOracle) (c : AltCol) (pr : Report × Report),
        pr.2.timestamp - pr.1.timestamp ≤ 0 → prof_step D B c pr = none) ∧
    (∀ (D : DistOracle) (B : BearOracle) (c : AltCol) (pr : Report × Report),
        0 < pr.2.timestamp - pr.1.timestamp → (prof_step D B c pr).isSome = true) := by
  refine ⟨?_, ?_, ?_, ?_⟩
  · intro D B pr h
    unfold traj_step
    dsimp only
    rw [if_pos h]
  · intro D B pr h1 h2 h3
    rw [traj_step_isSome_iff]
    exact ⟨h1, h2, h3⟩
  · intro D B c pr h
    unfold prof_step
    dsimp only
    rw [if_pos h]
  · intro D B c pr h
    rw [prof_step_isSome_iff]
    exact h

/-- C2, witness: the amended theorem applied at concrete pairs with
`dt = 301`, `dt = 299` and `dt = 0`. -/
theorem dt_rejection_by_mode_witness :
    traj_step distConst bearConst (rA, rB301) = none ∧
    (traj_step distConst bearConst (rA, rB299)).isSome = true ∧
    prof_step distConst bearConst .baro (rA, rA) = none ∧
    (prof_step distConst bearConst .baro (rA, rB299)).isSome = true := by
  refine ⟨dt_rejection_by_mode.1 _ _ _ ?_, dt_rejection_by_mode.2.1 _ _ _ ?_ ?_ ?_,
    dt_rejection_by_mode.2.2.1 _ _ _ _ ?_, dt_rejection_by_mode.2.2.2 _ _ _ _ ?_⟩ <;>
    norm_num [rA, rB299, rB301, mkReport]

/-! Claim C3: significance speed threshold. -/

/-- C3, counterexample: the claim says `calculate_wind_from_trajectory`
emits no vector for a pair whose speed is below the 1 m/s threshold; in
fact its differencing loop has no speed threshold: two reports at the same
position 10 seconds apart (geodesic distance 0, hence speed 0 m/s) produce
a wind vector with speed 0. -/
theorem speed_threshold_trajectory_counterexample :
    distZeroAtEq rA.pos rA10.pos = 0 ∧
    (trajectory_vectors distZeroAtEq bearConst [rA, rA10]).map WindVec.wind_speed = [0] := by
  constructor
  · norm_num [distZeroAtEq, rA, rA10, mkReport, Report.pos]
  · norm_num [trajectory_vectors, consecutive_pairs, traj_step, distZeroAtEq,
      bearConst, rA, rA10, mkReport, Report.pos, List.filterMap]

/-- C3 (amended): the 1 m/s significance threshold is applied by the
trajectory-as-wind differencing loop of app.py's `create_wind_profile`
(`app_wind_step`), which emits a vector only when `speed > 1`;
`calculate_wind_from_trajectory` in wind_calculator.py emits a vector for
every dt-valid pair with positive average altitude regardless of speed,
and the reciprocal mode (`calculate_wind_profile`) applies no speed
threshold either. -/
theorem speed_threshold_by_callsite :
    (∀ (D : DistOracle) (B : BearOracle) (c : AltCol) (pr : Report × Report),
        (app_wind_step D B c pr).isSome = true ↔
          (0 < pr.2.timestamp - pr.1.timestamp ∧
           pr.2.timestamp - pr.1.timestamp ≤ 300 ∧
           1 < D pr.1.pos pr.2.pos / (pr.2.timestamp - pr.1.timestamp))) ∧
    (∀ (D : DistOracle) (B : BearOracle) (pr : Report × Report),
        (traj_step D B pr).isSome = true ↔
          (0 < pr.2.timestamp - pr.1.timestamp ∧
           pr.2.timestamp - pr.1.timestamp ≤ 300 ∧
           0 < (pr.1.altitude.getD 0 + pr.2.altitude.getD 0) / 2)) ∧
    (∀ (D : DistOracle) (B : BearOracle) (c : AltCol) (pr : Report × Report),
        (prof_step D B c pr).isSome = true ↔ 0 < pr.2.timestamp - pr.1.timestamp) :=
  ⟨app_wind_step_isSome_iff, traj_step_isSome_iff, prof_step_isSome_iff⟩

/-! Claim C9: insufficient data yields an empty result. -/

/-- C9: whenever fewer than 2 usable reports remain (short input, fewer
than 2 rows surviving the validity filters or the profile filters, or
every consecutive pair rejected), both wind computations return their
empty result value; being total Lean functions, they raise nothing. -/
theorem insufficient_data_empty :
    (∀ (D : DistOracle) (B : BearOracle) (bs : ℤ) (ms : ℕ) (data : List Report),
        data.length < 2 → calculate_wind_from_trajectory D B bs ms data = []) ∧
    (∀ (D : DistOracle) (B : BearOracle) (bs : ℤ) (ms : ℕ) (data : List Report),
        (data.filter (valid_row .baro)).length < 2 →
        calculate_wind_from_trajectory D B bs ms data = []) ∧
    (∀ (D : DistOracle) (B : BearOracle) (bs : ℤ) (ms : ℕ) (data : List Report),
        trajectory_vectors D B (sort_by_timestamp (data.filter (valid_row .baro))) = [] →
        calculate_wind_from_trajectory D B bs ms data = []) ∧
    (∀ (D : DistOracle) (B : BearOracle) (src : String) (hg : Bool)
        (tfs dk : Option ℚ) (rd : Option (List Report)) (now : ℚ)
        (data : List Report), data.length < 2 →
        calculate_wind_profile D B src hg tfs dk rd now data = []) ∧
    (∀ (D : DistOracle) (B : BearOracle) (src : String) (hg : Bool)
        (tfs dk : Option ℚ) (rd : Option (List Report)) (now : ℚ)
        (data : List Report),
        (distance_filtered D dk (reference_position dk rd)
            (time_filtered tfs now data)).length < 2 →
        calculate_wind_profile D B src hg tfs dk rd now data = []) ∧
    (∀ (D : DistOracle) (B : BearOracle) (src : String) (hg : Bool)
        (tfs dk : Option ℚ) (rd : Option (List Report)) (now : ℚ)
        (data : List Report),
        (consecutive_pairs (sort_by_timestamp
            ((distance_filtered D dk (reference_position dk rd)
                (time_filtered tfs now data)).filter
              (valid_row (altitude_col src hg))))).filterMap
            (prof_step D B (altitude_col src hg)) = [] →
        calculate_wind_profile D B src hg tfs dk rd now data = []) := by
  refine ⟨?_, ?_, ?_, ?_, ?_, ?_⟩
  · intro D B bs ms data h
    unfold calculate_wind_from_trajectory
    rw [if_pos h]
  · intro D B bs ms data h
    unfold calculate_wind_from_trajectory
    dsimp only
    split_ifs <;> rfl
  · intro D B bs ms data h
    unfold calculate_wind_from_trajectory
    dsimp only
    split_ifs with h1 h2 h3 <;> try rfl
    exact absurd (by rw [h]; rfl) h3
  · intro D B src hg tfs dk rd now data h
    unfold calculate_wind_profile
    rw [if_pos h]
  · intro D B src hg tfs dk rd now data h
    unfold calculate_wind_profile
    dsimp only
    split_ifs <;> rfl
  · intro D B src hg tfs dk rd now data h
    unfold calculate_wind_profile
    dsimp only
    split_ifs with h1 h2 h3 h4 <;> try rfl
    exact absurd (by rw [h]; rfl) h4

/-- C9, witness: the theorem applied to the empty report list and to a
single report, in both computations. -/
theorem insufficient_data_empty_witness :
    calculate_wind_from_trajectory distConst bearConst 500 3 [] = [] ∧
    calculate_wind_from_trajectory distConst bearConst 500 3 [rA] = [] ∧
    calculate_wind_profile distConst bearConst "altitude" false none none none 0 [] = [] ∧
    calculate_wind_profile distConst bearConst "altitude" false none none none 0 [rA] = [] :=
  ⟨insufficient_data_empty.1 _ _ _ _ _ (by decide),
   insufficient_data_empty.1 _ _ _ _ _ (by decide),
   insufficient_data_empty.2.2.2.1 _ _ _ _ _ _ _ _ _ (by decide),
   insufficient_data_empty.2.2.2.1 _ _ _ _ _ _ _ _ _ (by decide)⟩

/-! Claim C10: altitude-source selection and fallback. -/

/-- C10: requesting `geo_altitude` when the records carry no geo-altitude
column silently falls back to the barometric column, and any other source
name (recognized or not) selects the barometric column, so an unrecognized
altitude source produces exactly the result of the barometric computation
(in particular it does not by itself empty the result, and the total
function raises nothing). -/
theorem altitude_source_fallback :
    (∀ (src : String) (hg : Bool), src ≠ "geo_altitude" →
        altitude_col src hg = AltCol.baro) ∧
    altitude_col "geo_altitude" false = AltCol.baro ∧
    (∀ (D : DistOracle) (B : BearOracle) (tfs dk : Option ℚ)
        (rd : Option (List Report)) (now : ℚ) (data : List Report),
        calculate_wind_profile D B "geo_altitude" false tfs dk rd now data =
        calculate_wind_profile D B "altitude" false tfs dk rd now data) ∧
    (∀ (D : DistOracle) (B : BearOracle) (src : String) (hg : Bool)
        (tfs dk : Option ℚ) (rd : Option (List Report)) (now : ℚ)
        (data : List Report), src ≠ "geo_altitude" →
        calculate_wind_profile D B src hg tfs dk rd now data =
        calculate_wind_profile D B "altitude" hg tfs dk rd now data) := by
  have hcol : ∀ (src : String) (hg : Bool), src ≠ "geo_altitude" →
      altitude_col src hg = AltCol.baro := by
    intro src hg h
    unfold altitude_col
    rw [if_neg]
    rintro ⟨h1, _⟩
    exact h h1
  have hgeo : altitude_col "geo_altitude" false = AltCol.baro := by
    unfold altitude_col
    rw [if_neg]
    rintro ⟨_, h2⟩
    cases h2
  refine ⟨hcol, hgeo, ?_, ?_⟩
  · intro D B tfs dk rd now data
    unfold calculate_wind_profile
    rw [hgeo, hcol "altitude" false (by decide)]
  · intro D B src hg tfs dk rd now data h
    unfold calculate_wind_profile
    rw [hcol src hg h, hcol "altitude" hg (by decide)]

/-- C10, witness: the theorem applied to the unrecognized source name
"bogus" and to the geo request without a geo column. -/
theorem altitude_source_fallback_witness :
    altitude_col "bogus" true = AltCol.baro ∧
    calculate_wind_profile distConst bearConst "bogus" true none none none 0 [rA, rC50] =
      calculate_wind_profile distConst bearConst "altitude" true none none none 0 [rA, rC50] ∧
    calculate_wind_profile distConst bearConst "geo_altitude" false none none none 0 [rA, rC50] =
      calculate_wind_profile distConst bearConst "altitude" false none none none 0 [rA, rC50] :=
  ⟨altitude_source_fallback.1 "bogus" true (by decide),
   altitude_source_fallback.2.2.2 _ _ "bogus" true none none none 0 [rA, rC50] (by decide),
   altitude_source_fallback.2.2.1 _ _ none none none 0 [rA, rC50]⟩

/-! Claim C7: minimum-sample suppression. -/

/-- C7: for every input, a bin appears in the aggregated output of
`bin_wind_data` exactly when at least `min_samples` wind vectors are
assigned to it (for any positive `min_samples`; in particular a bin with
exactly `min_samples - 1` vectors is absent and one with exactly
`min_samples` is present), and every emitted bin's `sample_count` is the
number of vectors assigned to it. -/
theorem min_samples_suppression :
    ∀ (bs : ℤ) (ms : ℕ) (vs : List WindVec) (b : ℤ), 0 < ms →
      ((b ∈ (bin_wind_data bs ms vs).map Prod.fst ↔
          ms ≤ (bin_sample bs vs b).length) ∧
       ∀ s, (b, s) ∈ bin_wind_data bs ms vs →
          s.sample_count = (bin_sample bs vs b).length) := by
  intro bs ms vs b hms
  have keys_eq : (bin_wind_data bs ms vs).map Prod.fst = bin_keys bs ms vs := by
    simp [bin_wind_data, List.map_map, Function.comp_def]
  constructor
  · rw [keys_eq]
    unfold bin_keys
    rw [List.mem_filter]
    simp only [decide_eq_true_eq, mem_unique_first]
    constructor
    · rintro ⟨_, h2⟩
      exact h2
    · intro h
      refine ⟨?_, h⟩
      have hlen : 0 < (bin_sample bs vs b).length := lt_of_lt_of_le hms h
      obtain ⟨v, hv⟩ := List.exists_mem_of_length_pos hlen
      have hv2 := List.mem_filter.mp hv
      simp only [decide_eq_true_eq] at hv2
      exact List.mem_map.mpr ⟨v, hv2.1, hv2.2⟩
  · intro s hs
    unfold bin_wind_data at hs
    obtain ⟨x, hx, hxs⟩ := List.mem_map.mp hs
    obtain ⟨h1, h2⟩ := Prod.mk.injEq .. ▸ hxs
    subst h1
    subst h2
    rfl

/-- C7, witness: the theorem applied with `min_samples = 3` to vectors
holding two samples in bin 15,000 and three in bin 16,000; the two sample
counts evaluate to 2 and 3, so bin 15,000 is suppressed and bin 16,000 is
present. -/
theorem min_samples_suppression_witness :
    ((15000 : ℤ) ∈ (bin_wind_data 500 3 suppression_vectors).map Prod.fst ↔
        3 ≤ (bin_sample 500 suppression_vectors 15000).length) ∧
    ((16000 : ℤ) ∈ (bin_wind_data 500 3 suppression_vectors).map Prod.fst ↔
        3 ≤ (bin_sample 500 suppression_vectors 16000).length) ∧
    (bin_sample 500 suppression_vectors 15000).length = 2 ∧
    (bin_sample 500 suppression_vectors 16000).length = 3 := by
  refine ⟨(min_samples_suppression 500 3 suppression_vectors 15000 (by decide)).1,
    (min_samples_suppression 500 3 suppression_vectors 16000 (by decide)).1, ?_, ?_⟩ <;>
    norm_num [bin_sample, bin_of, suppression_vectors, List.filter]

/-! Claim C6: floor-division altitude binning. -/

/-- C6: every bin key emitted by the aggregator is the floor-division bin
`floor(altitude / bin_size) * bin_size` of the altitude of some input
vector; with the default bin size of 500, altitude 15,200 maps to bin
15,000, altitude 15,999 to bin 15,500 and altitude 16,000 to bin
16,000. -/
theorem altitude_binning_floor :
    (∀ (bs : ℤ) (ms : ℕ) (vs : List WindVec) (b : ℤ),
        b ∈ (bin_wind_data bs ms vs).map Prod.fst →
        ∃ v, v ∈ vs ∧ b = bin_of bs v.altitude) ∧
    (∀ (bs : ℤ) (a : ℚ), bin_of bs a = ⌊a / (bs : ℚ)⌋ * bs) ∧
    bin_of 500 15200 = 15000 ∧ bin_of 500 15999 = 15500 ∧
    bin_of 500 16000 = 16000 := by
  refine ⟨?_, fun bs a => rfl, ?_, ?_, ?_⟩
  · intro bs ms vs b hb
    have keys_eq : (bin_wind_data bs ms vs).map Prod.fst = bin_keys bs ms vs := by
      simp [bin_wind_data, List.map_map, Function.comp_def]
    rw [keys_eq] at hb
    unfold bin_keys at hb
    obtain ⟨h1, _⟩ := List.mem_filter.mp hb
    rw [mem_unique_first] at h1
    obtain ⟨v, hv, hveq⟩ := List.mem_map.mp h1
    exact ⟨v, hv, hveq.symm⟩
  · norm_num [bin_of]
  · norm_num [bin_of]
  · norm_num [bin_of]

/-- C6, witness: the theorem applied to a single vector at altitude
15,200, which the aggregator places in bin 15,000. -/
theorem altitude_binning_floor_witness :
    ∃ v, v ∈ single_vector ∧ (15000 : ℤ) = bin_of 500 v.altitude :=
  altitude_binning_floor.1 500 1 single_vector 15000 (by
    norm_num [bin_wind_data, bin_keys, bin_sample, unique_first,
      unique_first_aux, bin_of, single_vector, List.filter])

/-! Claim C4: determinism of the profile service. -/

/-- C4, counterexample: the claim says the output is a pure function of
the report sequence and the configuration; but with a time filter of 100
seconds configured, the same two reports produce one wind record when the
wall clock reads 50 and an empty result when it reads 1000 — the output
also depends on `datetime.now()`. -/
theorem profile_time_dependence_counterexample :
    (calculate_wind_profile distConst bearConst "altitude" false (some 100)
        none none 50 [rA, rC50]).length = 1 ∧
    calculate_wind_profile distConst bearConst "altitude" false (some 100)
        none none 1000 [rA, rC50] = [] := by
  constructor <;>
    norm_num [calculate_wind_profile, time_filtered, reference_position,
      distance_filtered, altitude_col, valid_row, sort_by_timestamp,
      List.insertionSort, List.orderedInsert, consecutive_pairs, prof_step,
      rA, rC50, mkReport, Report.alt_of, Report.pos, pyModQ, List.filter,
      List.filterMap, distConst, bearConst]

/-- C4 (amended): the profile computation is a pure function of the report
snapshot, the configuration and the invocation time; whenever the time
filter is absent or non-positive the invocation time is irrelevant, so two
runs on the same immutable report sequence with the same configuration
yield identical output. -/
theorem profile_deterministic_without_time_filter :
    (∀ (D : DistOracle) (B : BearOracle) (src : String) (hg : Bool)
        (dk : Option ℚ) (rd : Option (List Report)) (data : List Report)
        (now1 now2 : ℚ),
        calculate_wind_profile D B src hg none dk rd now1 data =
        calculate_wind_profile D B src hg none dk rd now2 data) ∧
    (∀ (D : DistOracle) (B : BearOracle) (src : String) (hg : Bool)
        (t : ℚ) (dk : Option ℚ) (rd : Option (List Report))
        (data : List Report) (now1 now2 : ℚ), t ≤ 0 →
        calculate_wind_profile D B src hg (some t) dk rd now1 data =
        calculate_wind_profile D B src hg (some t) dk rd now2 data) := by
  constructor
  · intro D B src hg dk rd data now1 now2
    rfl
  · intro D B src hg t dk rd data now1 now2 ht
    have hfix : ∀ now, time_filtered (some t) now data = data := by
      intro now
      unfold time_filtered
      dsimp only
      rw [if_neg (not_lt.mpr ht)]
    unfold calculate_wind_profile
    rw [hfix now1, hfix now2]

/-- C4, witness: the amended theorem applied at a disabled (zero) and an
absent time filter. -/
theorem profile_deterministic_without_time_filter_witness :
    calculate_wind_profile distConst bearConst "altitude" false none none
        none 50 [rA, rC50] =
      calculate_wind_profile distConst bearConst "altitude" false none none
        none 1000 [rA, rC50] ∧
    calculate_wind_profile distConst bearConst "altitude" false (some 0) none
        none 50 [rA, rC50] =
      calculate_wind_profile distConst bearConst "altitude" false (some 0) none
        none 1000 [rA, rC50] :=
  ⟨profile_deterministic_without_time_filter.1 _ _ _ _ _ _ _ 50 1000,
   profile_deterministic_without_time_filter.2 _ _ _ _ 0 _ _ _ 50 1000 le_rfl⟩

/-! Claim C5: distance filtering and reference resolution. -/

/-- C5, counterexample: the claim says the reference position is the most
recent *valid* report of the reference trajectory and that every report
farther than the threshold is excluded.  In the code the most recent
report is taken first and, when that report itself has a null coordinate,
distance filtering is skipped entirely: with a reference trajectory whose
latest report has a null latitude (while an older valid report at (10,10)
exists), a 1 km filter removes nothing, and two subject reports 5000 km
from (10,10) still produce a wind record. -/
theorem reference_resolution_counterexample :
    spec_reference_position refTraj = some (10, 10) ∧
    distFar (10, 10) rA.pos / 1000 = 5000 ∧
    distFar (10, 10) rC50.pos / 1000 = 5000 ∧
    (calculate_wind_profile distFar bearConst "altitude" false none (some 1)
        (some refTraj) 0 [rA, rC50]).length = 1 := by
  refine ⟨?_, ?_, ?_, ?_⟩
  · norm_num [spec_reference_position, most_recent, truthy, refTraj,
      refValid, refStale, mkReport, List.filter]
  · norm_num [distFar]
  · norm_num [distFar]
  · norm_num [calculate_wind_profile, time_filtered, reference_position,
      distance_filtered, most_recent, truthy, altitude_col, valid_row,
      sort_by_timestamp, List.insertionSort, List.orderedInsert,
      consecutive_pairs, prof_step, rA, rC50, refTraj, refValid, refStale,
      mkReport, Report.alt_of, Report.pos, pyModQ, List.filter,
      List.filterMap, distFar, bearConst]

/-- C5 (amended): distance filtering is a no-op unless both a positive
maximum distance and a reference trajectory are given; the reference
position is resolved once, before filtering, as the most recent report (by
timestamp) of the reference identifier's own trajectory — independent of
the subject series — and is used only when that report itself has truthy
(non-null, nonzero) coordinates, the filter being skipped otherwise; when
the filter applies, a report is retained exactly when it has truthy
coordinates and lies within the threshold of the reference. -/
theorem distance_filter_semantics :
    (∀ (D : DistOracle) (dk : Option ℚ) (data : List Report),
        distance_filtered D dk none data = data) ∧
    (∀ (D : DistOracle) (rp : Option (ℚ × ℚ)) (data : List Report),
        distance_filtered D none rp data = data) ∧
    (∀ dk : Option ℚ, reference_position dk none = none) ∧
    (∀ rd : Option (List Report), reference_position none rd = none) ∧
    (∀ (D : DistOracle) (d : ℚ) (p : ℚ × ℚ) (data : List Report) (pt : Report),
        0 < d →
        (pt ∈ distance_filtered D (some d) (some p) data ↔
          pt ∈ data ∧ truthy pt.latitude = true ∧ truthy pt.longitude = true ∧
          D p pt.pos / 1000 ≤ d)) ∧
    (∀ (d : ℚ) (refs : List Report) (latest : Report), 0 < d →
        most_recent refs = some latest →
        (truthy latest.latitude && truthy latest.longitude) = false →
        reference_position (some d) (some refs) = none) ∧
    (∀ (d : ℚ) (refs : List Report) (latest : Report), 0 < d →
        most_recent refs = some latest →
        truthy latest.latitude = true → truthy latest.longitude = true →
        reference_position (some d) (some refs) =
          some (latest.latitude.getD 0, latest.longitude.getD 0)) := by
  refine ⟨?_, ?_, ?_, ?_, ?_, ?_, ?_⟩
  · intro D dk data
    cases dk <;> rfl
  · intro D rp data
    cases rp <;> rfl
  · intro dk
    cases dk <;> rfl
  · intro rd
    cases rd <;> rfl
  · intro D d p data pt hd
    unfold distance_filtered
    dsimp only
    rw [if_pos hd, List.mem_filter]
    simp only [Bool.and_eq_true, decide_eq_true_eq]
    tauto
  · intro d refs latest hd hml hfalse
    unfold reference_position
    dsimp only
    rw [if_pos hd, hml]
    dsimp only
    rw [if_neg]
    rw [hfalse]
    simp
  · intro d refs latest hd hml hlat hlon
    unfold reference_position
    dsimp only
    rw [if_pos hd, hml]
    dsimp only
    rw [if_pos]
    rw [hlat, hlon]
    simp

/-- C5, witness: the amended theorem applied at concrete inputs: the
membership characterization on a far point, the filter skip when the most
recent reference report has a null latitude, and the reference position
when the most recent reference report is valid. -/
theorem distance_filter_semantics_witness :
    ((rA ∈ distance_filtered distFar (some 1) (some (10, 10)) [rA, rC50] ↔
        rA ∈ [rA, rC50] ∧ truthy rA.latitude = true ∧ truthy rA.longitude = true ∧
        distFar (10, 10) rA.pos / 1000 ≤ 1)) ∧
    reference_position (some 1) (some refTraj) = none ∧
    reference_position (some 1) (some [refValid]) = some (10, 10) := by
  refine ⟨distance_filter_semantics.2.2.2.2.1 _ 1 (10, 10) [rA, rC50] rA (by norm_num),
    distance_filter_semantics.2.2.2.2.2.1 1 refTraj refStale (by norm_num) ?_ ?_,
    ?_⟩
  · norm_num [most_recent, refTraj, refValid, refStale, mkReport]
  · norm_num [truthy, refStale]
  · have := distance_filter_semantics.2.2.2.2.2.2 1 [refValid] refValid
      (by norm_num) (by norm_num [most_recent, refValid, mkReport])
      (by norm_num [truthy, refValid, mkReport])
      (by norm_num [truthy, refValid, mkReport])
    rw [this]
    norm_num [refValid, mkReport]

/-! Claim C8: the bearing formula, its range, and identical points. -/

/-- C8: for every pair of points, `_calculate_bearing` equals
`degrees(atan2(sin(dlon)*cos(lat2), cos(lat1)*sin(lat2) -
sin(lat1)*cos(lat2)*cos(dlon)))` normalized by `(theta + 360) mod 360`;
its value always lies in `[0, 360)`; and on identical points it returns 0
(the embedding is a total function, so nothing is raised; the geodesic
distance of identical points is the external library's concern). -/
theorem bearing_formula_range_identical :
    (∀ p1 p2 : ℝ × ℝ, calculate_bearing p1 p2 =
        pyMod (degrees (atan2
          (Real.sin (radians p2.2 - radians p1.2) * Real.cos (radians p2.1))
          (Real.cos (radians p1.1) * Real.sin (radians p2.1) -
           Real.sin (radians p1.1) * Real.cos (radians p2.1) *
             Real.cos (radians p2.2 - radians p1.2))) + 360) 360) ∧
    (∀ p1 p2 : ℝ × ℝ, 0 ≤ calculate_bearing p1 p2 ∧ calculate_bearing p1 p2 < 360) ∧
    (∀ p : ℝ × ℝ, calculate_bearing p p = 0) := by
  refine ⟨fun p1 p2 => rfl, ?_, ?_⟩
  · intro p1 p2
    exact ⟨pyMod_nonneg _ (by norm_num), pyMod_lt _ (by norm_num)⟩
  · intro p
    unfold calculate_bearing
    dsimp only
    have h1 : Real.sin (radians p.2 - radians p.2) * Real.cos (radians p.1) = 0 := by
      rw [sub_self, Real.sin_zero, zero_mul]
    have h2 : Real.cos (radians p.1) * Real.sin (radians p.1) -
        Real.sin (radians p.1) * Real.cos (radians p.1) *
          Real.cos (radians p.2 - radians p.2) = 0 := by
      rw [sub_self, Real.cos_zero]
      ring
    rw [h1, h2, atan2_zero_zero, degrees_zero, zero_add, pyMod_360_360]

/-! Claim C1: circular mean by vector decomposition. -/

theorem np_mean_pair (a b : ℝ) : np_mean [a, b] = (a + b) / 2 := by
  unfold np_mean
  norm_num

theorem demo_bin_keys : bin_keys 500 2 demo_vectors = [15000] := by
  norm_num [bin_keys, bin_sample, unique_first, unique_first_aux, bin_of,
    demo_vectors, List.filter, List.map]

theorem demo_bin_sample : bin_sample 500 demo_vectors 15000 = demo_vectors := by
  norm_num [bin_sample, bin_of, demo_vectors, List.filter]

theorem demo_mem :
    (15000, bin_aggregate 500 demo_vectors 15000) ∈ bin_wind_data 500 2 demo_vectors := by
  unfold bin_wind_data
  rw [demo_bin_keys]
  simp

theorem radians_350 : radians 350 = 2 * Real.pi - radians 10 := by
  unfold radians
  ring

theorem cos_radians_10_pos : 0 < Real.cos (radians 10) := by
  apply Real.cos_pos_of_mem_Ioo
  unfold radians
  constructor
  · linarith [Real.pi_pos]
  · linarith [Real.pi_pos]

theorem demo_direction : (bin_aggregate 500 demo_vectors 15000).wind_direction = 0 := by
  unfold bin_aggregate
  dsimp only
  rw [demo_bin_sample]
  have hmapu : demo_vectors.map
      (fun v => (v.wind_speed : ℝ) * Real.sin (radians (v.wind_direction : ℝ))) =
      [(8 : ℝ) * Real.sin (radians 350), 8 * Real.sin (radians 10)] := by
    norm_num [demo_vectors]
  have hmapv : demo_vectors.map
      (fun v => (v.wind_speed : ℝ) * Real.cos (radians (v.wind_direction : ℝ))) =
      [(8 : ℝ) * Real.cos (radians 350), 8 * Real.cos (radians 10)] := by
    norm_num [demo_vectors]
  have hu : np_mean [(8 : ℝ) * Real.sin (radians 350), 8 * Real.sin (radians 10)] = 0 := by
    rw [np_mean_pair, radians_350, Real.sin_two_pi_sub]
    ring
  have hv : np_mean [(8 : ℝ) * Real.cos (radians 350), 8 * Real.cos (radians 10)] =
      8 * Real.cos (radians 10) := by
    rw [np_mean_pair, radians_350, Real.cos_two_pi_sub]
    ring
  rw [hmapu, hmapv, hu, hv,
    atan2_zero_of_pos (mul_pos (by norm_num) cos_radians_10_pos),
    degrees_zero, zero_add, pyMod_360_360]

/-- C1: every bin retained by the aggregator reports as mean wind speed
and direction exactly the circular mean by vector decomposition
(`u` = mean of `speed*sin(radians dir)`, `v` = mean of
`speed*cos(radians dir)`, speed `sqrt(u^2+v^2)`, direction
`(degrees(atan2(u,v)) + 360) mod 360`); in particular, aggregating
`min_samples = 2` vectors of equal speed with directions 350 and 10
degrees yields mean direction exactly 0 — within 2 degrees of 0 and not
180. -/
theorem circular_mean_correct :
    (∀ (bs : ℤ) (ms : ℕ) (vs : List WindVec) (b : ℤ) (s : WindStats),
        (b, s) ∈ bin_wind_data bs ms vs →
        s.wind_speed = Real.sqrt
          (np_mean ((bin_sample bs vs b).map
              (fun v => (v.wind_speed : ℝ) * Real.sin (radians (v.wind_direction : ℝ)))) ^ 2 +
           np_mean ((bin_sample bs vs b).map
              (fun v => (v.wind_speed : ℝ) * Real.cos (radians (v.wind_direction : ℝ)))) ^ 2) ∧
        s.wind_direction = pyMod (degrees (atan2
          (np_mean ((bin_sample bs vs b).map
              (fun v => (v.wind_speed : ℝ) * Real.sin (radians (v.wind_direction : ℝ)))))
          (np_mean ((bin_sample bs vs b).map
              (fun v => (v.wind_speed : ℝ) * Real.cos (radians (v.wind_direction : ℝ)))))) +
          360) 360) ∧
    (∃ s, (15000, s) ∈ bin_wind_data 500 2 demo_vectors ∧
        s.wind_direction = 0 ∧ |s.wind_direction - 0| ≤ 2 ∧
        s.wind_direction ≠ 180) := by
  constructor
  · intro bs ms vs b s hmem
    unfold bin_wind_data at hmem
    obtain ⟨x, hx, hxs⟩ := List.mem_map.mp hmem
    obtain ⟨h1, h2⟩ := Prod.mk.injEq .. ▸ hxs
    subst h1
    subst h2
    exact ⟨rfl, rfl⟩
  · exact ⟨bin_aggregate 500 demo_vectors 15000, demo_mem, demo_direction,
      by rw [demo_direction]; norm_num,
      by rw [demo_direction]; norm_num⟩

/-- C1, witness: the formula part of the theorem applied to the concrete
bin 15,000 of the 350-and-10-degree demonstration input. -/
theorem circular_mean_correct_witness :
    (bin_aggregate 500 demo_vectors 15000).wind_speed = Real.sqrt
      (np_mean ((bin_sample 500 demo_vectors 15000).map
          (fun v => (v.wind_speed : ℝ) * Real.sin (radians (v.wind_direction : ℝ)))) ^ 2 +
       np_mean ((bin_sample 500 demo_vectors 15000).map
          (fun v => (v.wind_speed : ℝ) * Real.cos (radians (v.wind_direction : ℝ)))) ^ 2) ∧
    (bin_aggregate 500 demo_vectors 15000).wind_direction =
      pyMod (degrees (atan2
        (np_mean ((bin_sample 500 demo_vectors 15000).map
            (fun v => (v.wind_speed : ℝ) * Real.sin (radians (v.wind_direction : ℝ)))))
        (np_mean ((bin_sample 500 demo_vectors 15000).map
            (fun v => (v.wind_speed : ℝ) * Real.cos (radians (v.wind_direction : ℝ)))))) +
        360) 360 :=
  circular_mean_correct.1 500 2 demo_vectors 15000
    (bin_aggregate 500 demo_vectors 15000) demo_mem

end BalloonHud
